import Mathlib

/-!
Verification of the `jrpc_client` JSON-RPC client (DjangoJRPC).

The development shallowly embeds `src/jrpc_client/client.py` and the error
decoder of `src/jrpc_client/views.py`:

* Python JSON-like values become the inductive type `Json`; `json.dumps`
  (with its default separators) becomes `Json.dumps`; Python `str()` of such
  a value becomes `pyStr`.
* Exceptions become `Except PyError`; the code raises `ValueError` with a
  message, network and decoding failures are separate constructors.
* `HttpTransport.call` is modelled as a state-passing function: an explicit
  filesystem state `FsState` records the temporary files created by
  `_create_temp_cert_key_files` (`tempfile.NamedTemporaryFile(delete=False)`),
  and a `NetEnv` record injects the outcome of each network step
  (`conn.request`, `conn.getresponse`, `resp.read().decode`, `json.loads`).
  The returned `CallResult` records the outcome, the final filesystem, the
  requests actually sent, and whether the connection was opened and closed.
* `urllib.parse.urlparse` is modelled by `pyUrlparse` for the URL shapes the
  client handles (`scheme://host[:port]path`, plus arbitrary strings without
  a scheme), including the documented behaviour that `ParseResult.hostname`
  is lower-cased and `ParseResult.port` is absent when no port is given.
-/

/-- Python/JSON values as passed around by the client: `None`, booleans,
integers, strings, lists and dicts (insertion-ordered key/value pairs). -/
inductive Json where
  | null
  | bool (b : Bool)
  | num (n : Int)
  | str (s : String)
  | arr (xs : List Json)
  | obj (fs : List (String × Json))
deriving Repr

/-- Escape of one character inside a JSON string literal, as `json.dumps`
produces for the ASCII payloads the client builds. -/
def escapeChar (c : Char) : String :=
  if c = '"' then "\\\""
  else if c = '\\' then "\\\\"
  else if c = '\n' then "\\n"
  else if c = '\t' then "\\t"
  else if c = '\r' then "\\r"
  else String.singleton c

/-- Escape of a whole JSON string literal body. -/
def escString (s : String) : String :=
  String.join (s.data.map escapeChar)

mutual

/-- Models Python `json.dumps` with its default separators: items joined by
a comma and a space, keys followed by a colon and a space, dict order kept. -/
def Json.dumps : Json → String
  | .null => "null"
  | .bool true => "true"
  | .bool false => "false"
  | .num n => toString n
  | .str s => "\"" ++ escString s ++ "\""
  | .arr xs => "[" ++ dumpsArr xs ++ "]"
  | .obj fs => "\x7b" ++ dumpsObj fs ++ "\x7d"

/-- Comma-and-space separated rendering of a JSON array body. -/
def dumpsArr : List Json → String
  | [] => ""
  | [x] => Json.dumps x
  | x :: y :: xs => Json.dumps x ++ ", " ++ dumpsArr (y :: xs)

/-- Comma-and-space separated rendering of a JSON object body. -/
def dumpsObj : List (String × Json) → String
  | [] => ""
  | [(k, v)] => "\"" ++ escString k ++ "\": " ++ Json.dumps v
  | (k, v) :: p :: fs =>
      "\"" ++ escString k ++ "\": " ++ Json.dumps v ++ ", " ++ dumpsObj (p :: fs)

end

mutual

/-- Models Python `repr()` on JSON-like values (single-quoted strings,
`None`/`True`/`False`, `[...]` lists, `\x7b...\x7d` dicts). -/
def pyRepr : Json → String
  | .null => "None"
  | .bool true => "True"
  | .bool false => "False"
  | .num n => toString n
  | .str s => "'" ++ s ++ "'"
  | .arr xs => "[" ++ pyReprArr xs ++ "]"
  | .obj fs => "\x7b" ++ pyReprObj fs ++ "\x7d"

/-- `repr` of a list body, comma-and-space separated. -/
def pyReprArr : List Json → String
  | [] => ""
  | [x] => pyRepr x
  | x :: y :: xs => pyRepr x ++ ", " ++ pyReprArr (y :: xs)

/-- `repr` of a dict body, comma-and-space separated. -/
def pyReprObj : List (String × Json) → String
  | [] => ""
  | [(k, v)] => "'" ++ k ++ "': " ++ pyRepr v
  | (k, v) :: p :: fs => "'" ++ k ++ "': " ++ pyRepr v ++ ", " ++ pyReprObj (p :: fs)

end

/-- Models Python `str()` on JSON-like values: the string itself for a
string, `repr`-style rendering for everything else (as an f-string does). -/
def pyStr (j : Json) : String :=
  match j with
  | .str s => s
  | j => pyRepr j

/-- Python truthiness of a JSON-like value (`None`, `0`, `""`, `[]`, `\x7b\x7d`
and `False` are falsy). -/
def pyTruthy : Json → Bool
  | .null => false
  | .bool b => b
  | .num n => n != 0
  | .str s => s != ""
  | .arr xs => !xs.isEmpty
  | .obj fs => !fs.isEmpty

/-- Python truthiness of an optional string argument (`None` and `""` are
falsy), as used by `if certdata and keydata:`. -/
def pyTruthyStr : Option String → Bool
  | none => false
  | some s => s != ""

/-- Exceptions the embedded code can raise: `ValueError` with its message,
plus the distinct network/decoding failure modes of a call. -/
inductive PyError where
  | valueError (msg : String)
  | connectionError
  | unicodeDecodeError
  | jsonDecodeError
deriving Repr, DecidableEq

/-- `HttpTransport._validate_scheme`: raises `ValueError` unless the scheme
is `"http"` or `"https"`. -/
def HttpTransport.validateScheme (scheme : String) : Except PyError Unit :=
  if scheme = "http" ∨ scheme = "https" then Except.ok ()
  else Except.error (PyError.valueError
    ("Scheme \"" ++ scheme ++ "\" is not supported. Use \"http\" or \"https\"."))

/-- The `isinstance(params, (dict, list, NoneType))` check of
`HttpTransport._create_payload`. -/
def isValidParams : Json → Bool
  | .obj _ => true
  | .arr _ => true
  | .null => true
  | _ => false

/-- `HttpTransport._create_payload`: rejects params that are not a dict,
list or `None`, then serializes `\x7b'jsonrpc': version, 'method': method,
'params': params or \x7b\x7d, 'id': call_id\x7d` with `json.dumps`. -/
def HttpTransport.createPayload (method : String) (params : Json) (call_id : Int)
    (version : String) : Except PyError String :=
  if !isValidParams params then
    Except.error (PyError.valueError ("Params \"" ++ pyStr params ++ "\" are invalid"))
  else
    Except.ok (Json.dumps (Json.obj
      [("jsonrpc", Json.str version),
       ("method", Json.str method),
       ("params", if pyTruthy params then params else Json.obj []),
       ("id", Json.num call_id)]))

/-- `HttpTransport._create_headers`. -/
def HttpTransport.createHeaders : List (String × String) :=
  [("Content-Type", "application/json")]

/-- The filesystem as seen by `tempfile.NamedTemporaryFile`: a counter for
fresh names and the list of files currently on disk. -/
structure FsState where
  nextTemp : Nat
  files : List String
deriving Repr, DecidableEq

/-- The name the n-th temporary file is created under. -/
def tempName (n : Nat) : String := "/tmp/tmp" ++ toString n

/-- `HttpTransport._create_temp_cert_key_files`: creates two
`NamedTemporaryFile(delete=False)` files, writes the certificate and key
data into them, flushes, and returns them.  `delete=False` means closing
(or dropping) the handles does not remove the files, and the method
contains no removal: the files stay in `FsState.files`. -/
def HttpTransport.createTempCertKeyFiles (certdata keydata : String) (fs : FsState) :
    (String × String) × FsState :=
  let certfile := tempName fs.nextTemp
  let keyfile := tempName (fs.nextTemp + 1)
  ((certfile, keyfile),
   { nextTemp := fs.nextTemp + 2, files := fs.files ++ [certfile, keyfile] })

/-- The SSL context the transport builds: default server-authentication
trust, plus the certificate/key file pair loaded by `load_cert_chain`
when credential data was supplied. -/
structure SSLContext where
  certChain : Option (String × String)
deriving Repr, DecidableEq

/-- `HttpTransport._create_ssl_context`: `ssl.create_default_context`, then
`if certdata and keydata:` materialize them as temp files and load them. -/
def HttpTransport.createSslContext (certdata keydata : Option String) (fs : FsState) :
    SSLContext × FsState :=
  if pyTruthyStr certdata && pyTruthyStr keydata then
    match certdata, keydata with
    | some c, some k =>
        let r := HttpTransport.createTempCertKeyFiles c k fs
        ({ certChain := some r.1 }, r.2)
    | _, _ => ({ certChain := none }, fs)
  else ({ certChain := none }, fs)

/-- A connection object as returned by `HTTPConnection(host, port)` or
`HTTPSConnection(host, port, context=...)`.  Constructing it does not yet
open a socket; `conn.request` does. -/
inductive Conn where
  | httpConn (host : Option String) (port : Option Nat)
  | httpsConn (host : Option String) (port : Option Nat) (ctx : SSLContext)
deriving Repr, DecidableEq

/-- `HttpTransport._create_connection`. -/
def HttpTransport.createConnection (scheme : String) (host : Option String)
    (port : Option Nat) (certdata keydata : Option String) (fs : FsState) :
    Conn × FsState :=
  if scheme = "https" then
    let r := HttpTransport.createSslContext certdata keydata fs
    (Conn.httpsConn host port r.1, r.2)
  else (Conn.httpConn host port, fs)

/-- Outcome injection for the network steps of one call: whether
`conn.request`, `conn.getresponse`, `resp.read()` and `.decode("utf-8")`
succeed, the decoded body text when they all do, and the outcome of
`json.loads` on that body. -/
structure NetEnv where
  requestOk : Bool
  getresponseOk : Bool
  readOk : Bool
  decodeOk : Bool
  body : String
  loads : Except Unit Json

/-- What one `HttpTransport.call` invocation did: its result, the final
filesystem, whether a connection open was attempted/performed, whether the
connection was closed, and the requests sent as
`(HTTP method, url, body, headers)`. -/
structure CallResult where
  result : Except PyError Json
  fs : FsState
  connOpened : Bool
  connClosed : Bool
  requests : List (String × String × String × List (String × String))

/-- `HttpTransport.call`, line by line: validate the scheme, create the
connection object (materializing credentials for https), build the payload,
build the headers, `conn.request(...)`, `conn.getresponse()`,
`resp.read().decode("utf-8")`, `conn.close()`, `json.loads(data)`.
There is no `try`/`finally`: an exception in any network or decoding step
propagates immediately, skipping the rest of the body. -/
def HttpTransport.call (scheme : String) (host : Option String) (port : Option Nat)
    (url : String) (method : String) (params : Json) (call_id : Int) (version : String)
    (certdata keydata : Option String) (fs : FsState) (env : NetEnv) : CallResult :=
  match HttpTransport.validateScheme scheme with
  | Except.error e =>
      { result := Except.error e, fs := fs, connOpened := false, connClosed := false,
        requests := [] }
  | Except.ok () =>
    let c := HttpTransport.createConnection scheme host port certdata keydata fs
    let fs₁ := c.2
    match HttpTransport.createPayload method params call_id version with
    | Except.error e =>
        { result := Except.error e, fs := fs₁, connOpened := false, connClosed := false,
          requests := [] }
    | Except.ok payload =>
      let headers := HttpTransport.createHeaders
      if !env.requestOk then
        { result := Except.error PyError.connectionError, fs := fs₁, connOpened := true,
          connClosed := false, requests := [] }
      else
        let reqs := [("POST", url, payload, headers)]
        if !env.getresponseOk then
          { result := Except.error PyError.connectionError, fs := fs₁, connOpened := true,
            connClosed := false, requests := reqs }
        else if !env.readOk then
          { result := Except.error PyError.connectionError, fs := fs₁, connOpened := true,
            connClosed := false, requests := reqs }
        else if !env.decodeOk then
          { result := Except.error PyError.unicodeDecodeError, fs := fs₁, connOpened := true,
            connClosed := false, requests := reqs }
        else
          match env.loads with
          | Except.error _ =>
              { result := Except.error PyError.jsonDecodeError, fs := fs₁, connOpened := true,
                connClosed := true, requests := reqs }
          | Except.ok j =>
              { result := Except.ok j, fs := fs₁, connOpened := true, connClosed := true,
                requests := reqs }

/-- Characters allowed in a URL scheme after the first (Python
`scheme_chars`: letters, digits, `+`, `-`, `.`). -/
def isSchemeChar (c : Char) : Bool :=
  c.isAlphanum || c = '+' || c = '-' || c = '.'

/-- The result of `urllib.parse.urlparse`: scheme, netloc and path (the
client reads nothing else). -/
structure PyParsedUrl where
  scheme : String
  netloc : String
  path : String
deriving Repr, DecidableEq

/-- Models `urllib.parse.urlparse` on the URL shapes the client handles:
a leading `scheme:` is recognized when the part before the first colon is
non-empty, starts with a letter and uses only scheme characters, and is
lower-cased; a following `//` introduces the netloc, which extends to the
next `/`, `?` or `#`; the rest (up to `?` or `#`) is the path.  A string
with no recognizable scheme keeps scheme and netloc empty and is returned
as its path — `urlparse` raises no error on such input. -/
def pyUrlparse (url : String) : PyParsedUrl :=
  let cs := url.data
  let pre := cs.takeWhile (· != ':')
  let post := cs.dropWhile (· != ':')
  let sr : List Char × List Char :=
    match post with
    | ':' :: tail =>
        if !pre.isEmpty && (pre.headD ' ').isAlpha && pre.all isSchemeChar then
          (pre, tail)
        else ([], cs)
    | _ => ([], cs)
  let schemeCs := sr.1
  let restCs := sr.2
  match restCs with
  | '/' :: '/' :: tail =>
      let netloc := tail.takeWhile fun c => c != '/' && c != '?' && c != '#'
      let rest := tail.dropWhile fun c => c != '/' && c != '?' && c != '#'
      { scheme := String.mk (schemeCs.map Char.toLower),
        netloc := String.mk netloc,
        path := String.mk (rest.takeWhile fun c => c != '?' && c != '#') }
  | _ =>
      { scheme := String.mk (schemeCs.map Char.toLower),
        netloc := "",
        path := String.mk (restCs.takeWhile fun c => c != '?' && c != '#') }

/-- Models Python `str.lower()` for the ASCII strings the client handles. -/
def pyLower (s : String) : String :=
  String.mk (s.data.map Char.toLower)

/-- Numeric value of a digit string (most significant first). -/
def digitsToNat (ds : List Char) : Nat :=
  ds.foldl (fun acc c => acc * 10 + (c.toNat - '0'.toNat)) 0

/-- `ParseResult.hostname`: the netloc up to the port separator, lower-cased;
`None` when empty. -/
def PyParsedUrl.hostname (p : PyParsedUrl) : Option String :=
  let h := String.mk (p.netloc.data.takeWhile (· != ':'))
  if h = "" then none else some (pyLower h)

/-- `ParseResult.port`: the text after the port separator, cast with
`int(port, 10)` and range-checked when the property is accessed: `None`
when the netloc has no (or an empty) port; the numeric value for a digit
string whose value lies in `0..65535`; the `ValueError` CPython raises
otherwise — `Port could not be cast to integer value as ...` for a
non-numeric port (cast modelled for plain digit strings; the
underscore/sign spellings `int` also accepts do not occur in the URLs
modelled here) and `Port out of range 0-65535` for an overflowing one. -/
def PyParsedUrl.port (p : PyParsedUrl) : Except PyError (Option Nat) :=
  match p.netloc.data.dropWhile (· != ':') with
  | ':' :: ds =>
      if ds.isEmpty then Except.ok none
      else if ds.all Char.isDigit then
        if digitsToNat ds ≤ 65535 then Except.ok (some (digitsToNat ds))
        else Except.error (PyError.valueError "Port out of range 0-65535")
      else Except.error (PyError.valueError
        ("Port could not be cast to integer value as '" ++ String.mk ds ++ "'"))
  | _ => Except.ok none

/-- `UrlParser.__init__`: stores the URL and `urlparse(url)`.  It performs
no validation and cannot fail. -/
structure UrlParser where
  url : String
  parsed_url : PyParsedUrl
deriving Repr, DecidableEq

/-- `UrlParser(url)`. -/
def UrlParser.init (url : String) : UrlParser :=
  { url := url, parsed_url := pyUrlparse url }

/-- `UrlParser.scheme` property: `self.parsed_url.scheme.lower()`. -/
def UrlParser.scheme (p : UrlParser) : String :=
  pyLower p.parsed_url.scheme

/-- `UrlParser.host` property: `self.parsed_url.hostname`. -/
def UrlParser.host (p : UrlParser) : Option String :=
  p.parsed_url.hostname

/-- `UrlParser.port` property: `self.parsed_url.port` (a `ValueError` the
`port` property raises propagates to whoever reads the property). -/
def UrlParser.port (p : UrlParser) : Except PyError (Option Nat) :=
  p.parsed_url.port

/-- `UrlParser.path` property: `self.parsed_url.path`. -/
def UrlParser.path (p : UrlParser) : String :=
  p.parsed_url.path

/-- `VersionValidator.validate`: identity on `"2.0"`, `ValueError` naming
the rejected value otherwise (`if version not in ('2.0',)`). -/
def VersionValidator.validate (version : String) : Except PyError String :=
  if version = "2.0" then Except.ok version
  else Except.error (PyError.valueError ("Version \"" ++ version ++ "\" is not supported"))

/-- `JrpcServer` state after `__init__`: the stored parser, validated
version and credential data (the transport itself is the `HttpTransport`
model above). -/
structure JrpcServer where
  urlParser : UrlParser
  version : String
  certfile : Option String
  keyfile : Option String
deriving Repr, DecidableEq

/-- `JrpcServer.__init__`: builds the `UrlParser` (which cannot fail), then
validates the version; a `ValueError` from the validator propagates and
prevents construction. -/
def JrpcServer.init (url version : String) (certfile keyfile : Option String) :
    Except PyError JrpcServer :=
  let up := UrlParser.init url
  match VersionValidator.validate version with
  | Except.error e => Except.error e
  | Except.ok v => Except.ok { urlParser := up, version := v, certfile := certfile,
                               keyfile := keyfile }

/-- `JrpcServer.call_method` with the `HttpTransport`: reads the parsed
scheme, host, port and path (a `ValueError` from reading the port
propagates, and then nothing is sent), and forwards them with the
validated version and the stored credential data to `HttpTransport.call`. -/
def JrpcServer.callMethod (s : JrpcServer) (method : String) (params : Json)
    (call_id : Int) (fs : FsState) (env : NetEnv) : CallResult :=
  match s.urlParser.port with
  | Except.error e =>
      { result := Except.error e, fs := fs, connOpened := false, connClosed := false,
        requests := [] }
  | Except.ok port =>
      HttpTransport.call s.urlParser.scheme s.urlParser.host port
        s.urlParser.path method params call_id s.version s.certfile s.keyfile fs env

/-- `dict.get(key, default)` on a modelled dict. -/
def dictGet (fs : List (String × Json)) (key : String) (default : Json) : Json :=
  match fs.find? (fun p => p.1 == key) with
  | some p => p.2
  | none => default

/-- `JrpcClientView._decode_jrpc_error` from `views.py`: reads `code`
(default `-1`), `message` (default `'Unknown error'`) and `data` (default
`\x7b\x7d`) from the error dict, then dispatches: the five exact reserved
codes first, then the `-32099 <= code <= -32000` range, then the catch-all.
Modelled for integer codes (a non-integer code would make the range
comparison raise `TypeError`; JSON-RPC error codes are integers). -/
def JrpcClientView.decodeJrpcError (error_data : List (String × Json)) : Option String :=
  let error_code := dictGet error_data "code" (Json.num (-1))
  let error_message := dictGet error_data "message" (Json.str "Unknown error")
  let error_details := dictGet error_data "data" (Json.obj [])
  match error_code with
  | Json.num c =>
      if c = -32700 then some "Parse error: Invalid JSON was received by the server."
      else if c = -32600 then some "Invalid Request: The JSON sent is not a valid Request object."
      else if c = -32601 then some "Method not found: The method does not exist or is not available."
      else if c = -32602 then some "Invalid params: Invalid method parameter(s)."
      else if c = -32603 then some "Internal error: Internal JSON-RPC error."
      else if -32099 ≤ c ∧ c ≤ -32000 then
        some ("Server error: " ++ pyStr error_message ++ ". Details: " ++ pyStr error_details)
      else some ("Unknown error: " ++ pyStr error_message ++ ". Details: " ++ pyStr error_details)
  | _ => none

/-- The error categories named by the JSON-RPC 2.0 reserved-code table. -/
inductive ErrorCategory where
  | parseError
  | invalidRequest
  | methodNotFound
  | invalidParams
  | internalError
  | serverError
  | unknownError
deriving Repr, DecidableEq

/-- Modelled from the spec: the category a JSON-RPC error code decodes to —
exact codes first, then the inclusive `[-32099, -32000]` server-error range,
then the catch-all. -/
def specErrorCategory (code : Int) : ErrorCategory :=
  if code = -32700 then ErrorCategory.parseError
  else if code = -32600 then ErrorCategory.invalidRequest
  else if code = -32601 then ErrorCategory.methodNotFound
  else if code = -32602 then ErrorCategory.invalidParams
  else if code = -32603 then ErrorCategory.internalError
  else if -32099 ≤ code ∧ code ≤ -32000 then ErrorCategory.serverError
  else ErrorCategory.unknownError

/-- The human-readable description each category decodes to, echoing the
message and data for the server-error and unknown-error categories. -/
def categoryMessage (cat : ErrorCategory) (message details : Json) : String :=
  match cat with
  | ErrorCategory.parseError => "Parse error: Invalid JSON was received by the server."
  | ErrorCategory.invalidRequest => "Invalid Request: The JSON sent is not a valid Request object."
  | ErrorCategory.methodNotFound => "Method not found: The method does not exist or is not available."
  | ErrorCategory.invalidParams => "Invalid params: Invalid method parameter(s)."
  | ErrorCategory.internalError => "Internal error: Internal JSON-RPC error."
  | ErrorCategory.serverError =>
      "Server error: " ++ pyStr message ++ ". Details: " ++ pyStr details
  | ErrorCategory.unknownError =>
      "Unknown error: " ++ pyStr message ++ ". Details: " ++ pyStr details

/-- Modelled from the spec: the request body
`\x7bjsonrpc: version, method, params: params or \x7b\x7d, id: call_id\x7d`,
serialized as JSON (absent params serialize as an empty object). -/
def specRequestBody (version method : String) (params : Json) (call_id : Int) : String :=
  Json.dumps (Json.obj
    [("jsonrpc", Json.str version),
     ("method", Json.str method),
     ("params", if pyTruthy params then params else Json.obj []),
     ("id", Json.num call_id)])

/-- Modelled from the spec: the header set of the single POST. -/
def specHeaders : List (String × String) := [("Content-Type", "application/json")]

example : HttpTransport.createPayload "test_method" (Json.obj [("param", Json.str "value")]) 1 "2.0"
    = Except.ok "\x7b\"jsonrpc\": \"2.0\", \"method\": \"test_method\", \"params\": \x7b\"param\": \"value\"\x7d, \"id\": 1\x7d" := by
  rfl


example : pyUrlparse "http://example.com/api"
    = { scheme := "http", netloc := "example.com", path := "/api" } := by decide
example : pyUrlparse "no-scheme"
    = { scheme := "", netloc := "", path := "no-scheme" } := by decide
example : pyUrlparse "HTTP://Example.com/Api"
    = { scheme := "http", netloc := "Example.com", path := "/Api" } := by decide
example : (UrlParser.init "http://EXAMPLE.com:8080/path").host = some "example.com" := by decide
example : (UrlParser.init "http://EXAMPLE.com:8080/path").port = Except.ok (some 8080) := by
  rfl
example : (UrlParser.init "http://example.com/api").port = Except.ok none := by rfl
example : (UrlParser.init "http://example.com:/api").port = Except.ok none := by rfl
example : (UrlParser.init "http://example.com:70000/x").port
    = Except.error (PyError.valueError "Port out of range 0-65535") := by rfl
example : (UrlParser.init "http://example.com:8a/x").port
    = Except.error (PyError.valueError "Port could not be cast to integer value as '8a'") := by
  rfl
example : (UrlParser.init "http://example.com:80/x?q=1#f").path = "/x" := by decide

/-- Whatever a call does, the filesystem it leaves behind is the one
`_create_connection` produced: no later step touches it (nothing deletes
the temporary files). -/
theorem call_fs_after_connection (scheme : String) (host : Option String)
    (port : Option Nat) (url method : String) (params : Json) (call_id : Int)
    (version : String) (certdata keydata : Option String) (fs : FsState) (env : NetEnv)
    (h : scheme = "http" ∨ scheme = "https") :
    (HttpTransport.call scheme host port url method params call_id version
        certdata keydata fs env).fs
      = (HttpTransport.createConnection scheme host port certdata keydata fs).2 := by
  unfold HttpTransport.call HttpTransport.validateScheme
  simp only [if_pos h]
  repeat' split
  all_goals rfl

/-- C1: REFUTED (code bug).  An https `HttpTransport.call` that supplies
both certificate data and key data creates two temporary files
(`NamedTemporaryFile(delete=False)`) and removes them on no exit path:
whatever the network environment does and however the call ends, the final
filesystem still holds both files appended to what was there before. -/
theorem https_call_with_credentials_leaves_temp_files (host : Option String)
    (port : Option Nat) (url method : String) (params : Json) (call_id : Int)
    (version : String) (c k : String) (fs : FsState) (env : NetEnv)
    (hc : c ≠ "") (hk : k ≠ "") :
    (HttpTransport.call "https" host port url method params call_id version
        (some c) (some k) fs env).fs.files
      = fs.files ++ [tempName fs.nextTemp, tempName (fs.nextTemp + 1)] := by
  rw [call_fs_after_connection _ _ _ _ _ _ _ _ _ _ _ _ (Or.inr rfl)]
  simp only [HttpTransport.createConnection, HttpTransport.createSslContext,
    HttpTransport.createTempCertKeyFiles, pyTruthyStr, if_pos rfl]
  have hcb : (c != "") = true := by simpa using hc
  have hkb : (k != "") = true := by simpa using hk
  simp [hcb, hkb]

/-- Witness for C1 at a concrete https call with credentials: the two
temporary files are still on disk after the call. -/
theorem https_call_with_credentials_leaves_temp_files_witness :
    "CERT" ≠ "" ∧ "KEY" ≠ "" ∧
    (HttpTransport.call "https" (some "example.com") none "/api" "test_method"
        Json.null 1 "2.0" (some "CERT") (some "KEY") ⟨0, []⟩
        ⟨true, true, true, true, "", Except.error ()⟩).fs.files
      = ["/tmp/tmp0", "/tmp/tmp1"] := by
  refine ⟨by decide, by decide, ?_⟩
  rw [https_call_with_credentials_leaves_temp_files (some "example.com") none "/api"
    "test_method" Json.null 1 "2.0" "CERT" "KEY" ⟨0, []⟩
    ⟨true, true, true, true, "", Except.error ()⟩ (by decide) (by decide)]
  decide

/-- C6: an unsupported scheme makes `HttpTransport.call` fail with the
`ValueError` naming the offending scheme, before any connection object is
created, any request is sent, or any file is touched. -/
theorem call_unsupported_scheme_fails_first (scheme : String) (host : Option String)
    (port : Option Nat) (url method : String) (params : Json) (call_id : Int)
    (version : String) (certdata keydata : Option String) (fs : FsState) (env : NetEnv)
    (h1 : scheme ≠ "http") (h2 : scheme ≠ "https") :
    (HttpTransport.call scheme host port url method params call_id version
        certdata keydata fs env)
      = { result := Except.error (PyError.valueError
            ("Scheme \"" ++ scheme ++ "\" is not supported. Use \"http\" or \"https\".")),
          fs := fs, connOpened := false, connClosed := false, requests := [] } := by
  unfold HttpTransport.call HttpTransport.validateScheme
  rw [if_neg (by simp [h1, h2])]

/-- Witness for C6 at scheme `"ftp"`: the call fails with the exact message
of the source (and of its test suite), having opened nothing. -/
theorem call_unsupported_scheme_fails_first_witness :
    "ftp" ≠ "http" ∧ "ftp" ≠ "https" ∧
    (HttpTransport.call "ftp" (some "example.com") none "/api" "test_method"
        (Json.obj [("param", Json.str "value")]) 1 "2.0" none none ⟨0, []⟩
        ⟨true, true, true, true, "", Except.error ()⟩)
      = { result := Except.error (PyError.valueError
            "Scheme \"ftp\" is not supported. Use \"http\" or \"https\"."),
          fs := ⟨0, []⟩, connOpened := false, connClosed := false, requests := [] } := by
  refine ⟨by decide, by decide, ?_⟩
  rw [call_unsupported_scheme_fails_first "ftp" (some "example.com") none "/api"
    "test_method" (Json.obj [("param", Json.str "value")]) 1 "2.0" none none ⟨0, []⟩
    ⟨true, true, true, true, "", Except.error ()⟩ (by decide) (by decide)]
  rfl

/-- C8: params that are neither a dict nor a list (nor `None`) make
`HttpTransport.call` fail with the params `ValueError` before anything is
serialized or sent: no request goes out and no connection is opened. -/
theorem call_invalid_params_fails_before_send (scheme : String) (host : Option String)
    (port : Option Nat) (url method : String) (params : Json) (call_id : Int)
    (version : String) (certdata keydata : Option String) (fs : FsState) (env : NetEnv)
    (hS : scheme = "http" ∨ scheme = "https") (hp : isValidParams params = false) :
    (HttpTransport.call scheme host port url method params call_id version
          certdata keydata fs env).result
        = Except.error (PyError.valueError ("Params \"" ++ pyStr params ++ "\" are invalid"))
      ∧ (HttpTransport.call scheme host port url method params call_id version
          certdata keydata fs env).requests = []
      ∧ (HttpTransport.call scheme host port url method params call_id version
          certdata keydata fs env).connOpened = false := by
  unfold HttpTransport.call HttpTransport.validateScheme HttpTransport.createPayload
  rw [if_pos hS]
  simp [hp]

/-- Witness for C8 at `params = "not-an-object"`: the call fails with the
params `ValueError` and nothing is sent. -/
theorem call_invalid_params_fails_before_send_witness :
    ("http" = "http" ∨ "http" = "https") ∧ isValidParams (Json.str "not-an-object") = false ∧
    ((HttpTransport.call "http" (some "example.com") none "/api" "test_method"
          (Json.str "not-an-object") 1 "2.0" none none ⟨0, []⟩
          ⟨true, true, true, true, "", Except.error ()⟩).result
        = Except.error (PyError.valueError "Params \"not-an-object\" are invalid")
      ∧ (HttpTransport.call "http" (some "example.com") none "/api" "test_method"
          (Json.str "not-an-object") 1 "2.0" none none ⟨0, []⟩
          ⟨true, true, true, true, "", Except.error ()⟩).requests = []
      ∧ (HttpTransport.call "http" (some "example.com") none "/api" "test_method"
          (Json.str "not-an-object") 1 "2.0" none none ⟨0, []⟩
          ⟨true, true, true, true, "", Except.error ()⟩).connOpened = false) := by
  refine ⟨Or.inl rfl, rfl, ?_⟩
  have h := call_invalid_params_fails_before_send "http" (some "example.com") none "/api"
    "test_method" (Json.str "not-an-object") 1 "2.0" none none ⟨0, []⟩
    ⟨true, true, true, true, "", Except.error ()⟩ (Or.inl rfl) rfl
  simpa using h

/-- C2, as amended: the connection is closed exactly when the call gets past
every step before `conn.close()` — a valid scheme, valid params, and
successful request, response, read and UTF-8 decode; a failure in any of
those network/decoding steps propagates without closing the connection
(only a `json.loads` failure, which happens after `conn.close()`, still
leaves it closed). -/
theorem call_connClosed_eq (scheme : String) (host : Option String)
    (port : Option Nat) (url method : String) (params : Json) (call_id : Int)
    (version : String) (certdata keydata : Option String) (fs : FsState) (env : NetEnv) :
    (HttpTransport.call scheme host port url method params call_id version
        certdata keydata fs env).connClosed
      = ((scheme == "http" || scheme == "https") && isValidParams params &&
         env.requestOk && env.getresponseOk && env.readOk && env.decodeOk) := by
  unfold HttpTransport.call HttpTransport.validateScheme HttpTransport.createPayload
  by_cases hS : scheme = "http" ∨ scheme = "https"
  · rw [if_pos hS]
    have hb : (scheme == "http" || scheme == "https") = true := by
      rcases hS with h | h <;> simp [h]
    rw [hb, Bool.true_and]
    cases hval : isValidParams params
    · simp
    · rcases env with ⟨rq, gr, rd, dc, body, loads⟩
      cases rq <;> cases gr <;> cases rd <;> cases dc <;> simp <;>
        first
          | rfl
          | (cases loads <;> rfl)
  · rw [if_neg hS]
    push_neg at hS
    have hb : (scheme == "http" || scheme == "https") = false := by
      simp [hS.1, hS.2]
    simp [hb]

/-- C2: REFUTED as stated.  A concrete http call whose `resp.read()` fails
(after the connection was opened and the request sent) propagates the error
with the connection still open: `conn.close()` is not reached, since the
body has no `try`/`finally`. -/
theorem call_read_failure_leaves_connection_open :
    (HttpTransport.call "http" (some "example.com") none "/api" "test_method"
        (Json.obj [("param", Json.str "value")]) 1 "2.0" none none ⟨0, []⟩
        ⟨true, true, false, true, "", Except.error ()⟩).connOpened = true
    ∧ (HttpTransport.call "http" (some "example.com") none "/api" "test_method"
        (Json.obj [("param", Json.str "value")]) 1 "2.0" none none ⟨0, []⟩
        ⟨true, true, false, true, "", Except.error ()⟩).connClosed = false
    ∧ (HttpTransport.call "http" (some "example.com") none "/api" "test_method"
        (Json.obj [("param", Json.str "value")]) 1 "2.0" none none ⟨0, []⟩
        ⟨true, true, false, true, "", Except.error ()⟩).result
      = Except.error PyError.connectionError :=
  ⟨rfl, rfl, rfl⟩

/-- C7: `VersionValidator.validate` is the identity on `"2.0"`; every other
version is rejected with the `ValueError` carrying the rejected value, and
the same rejection happens at `JrpcServer` construction time, so no
instance (and hence no call) can exist with an unsupported version. -/
theorem version_validate_identity_on_supported :
    VersionValidator.validate "2.0" = Except.ok "2.0"
    ∧ ∀ v : String, v ≠ "2.0" →
        VersionValidator.validate v
            = Except.error (PyError.valueError ("Version \"" ++ v ++ "\" is not supported"))
        ∧ ∀ (url : String) (certfile keyfile : Option String),
            JrpcServer.init url v certfile keyfile
              = Except.error (PyError.valueError ("Version \"" ++ v ++ "\" is not supported")) := by
  refine ⟨rfl, fun v hv => ⟨?_, fun url certfile keyfile => ?_⟩⟩
  · unfold VersionValidator.validate
    rw [if_neg hv]
  · unfold JrpcServer.init VersionValidator.validate
    rw [if_neg hv]

/-- Witness for C7 at version `"1.0"`: rejected by the validator and by
`JrpcServer` construction, with the exact message of the source's tests. -/
theorem version_validate_identity_on_supported_witness :
    VersionValidator.validate "2.0" = Except.ok "2.0"
    ∧ "1.0" ≠ "2.0"
    ∧ VersionValidator.validate "1.0"
        = Except.error (PyError.valueError "Version \"1.0\" is not supported")
    ∧ JrpcServer.init "http://example.com/api" "1.0" none none
        = Except.error (PyError.valueError "Version \"1.0\" is not supported") := by
  have h := version_validate_identity_on_supported
  refine ⟨h.1, by decide, ?_, ?_⟩
  · have := (h.2 "1.0" (by decide)).1
    simpa using this
  · have := (h.2 "1.0" (by decide)).2 "http://example.com/api" none none
    simpa using this

/-- C5: a call with a valid scheme and valid params whose send is not
interrupted sends exactly one request — a POST to the endpoint path whose
body is the spec's serialization of
`\x7bjsonrpc: version, method, params: params or \x7b\x7d, id: call_id\x7d`
and whose only header is `Content-Type: application/json` — no matter how
the later steps of the call turn out. -/
theorem call_sends_single_post (scheme : String) (host : Option String)
    (port : Option Nat) (url method : String) (params : Json) (call_id : Int)
    (version : String) (certdata keydata : Option String) (fs : FsState) (env : NetEnv)
    (hS : scheme = "http" ∨ scheme = "https") (hp : isValidParams params = true)
    (hr : env.requestOk = true) :
    (HttpTransport.call scheme host port url method params call_id version
        certdata keydata fs env).requests
      = [("POST", url, specRequestBody version method params call_id, specHeaders)] := by
  unfold HttpTransport.call HttpTransport.validateScheme HttpTransport.createPayload
  rw [if_pos hS]
  rcases env with ⟨rq, gr, rd, dc, body, loads⟩
  simp only at hr
  subst hr
  simp only [hp, Bool.not_true, Bool.false_eq_true, if_false, specRequestBody, specHeaders,
    HttpTransport.createHeaders]
  cases gr <;> cases rd <;> cases dc <;> simp <;> first | rfl | (cases loads <;> rfl)

/-- Witness for C5: the concrete call of the source's test suite sends one
POST to `/api` with the exact body and header of the test's assertion. -/
theorem call_sends_single_post_witness :
    ("http" = "http" ∨ "http" = "https")
    ∧ isValidParams (Json.obj [("param", Json.str "value")]) = true
    ∧ (HttpTransport.call "http" (some "example.com") none "/api" "test_method"
        (Json.obj [("param", Json.str "value")]) 1 "2.0" none none ⟨0, []⟩
        ⟨true, true, true, true, "\x7b\"jsonrpc\": \"2.0\", \"result\": \"success\", \"id\": 1\x7d",
         Except.ok (Json.obj [("jsonrpc", Json.str "2.0"), ("result", Json.str "success"),
                              ("id", Json.num 1)])⟩).requests
      = [("POST", "/api",
          "\x7b\"jsonrpc\": \"2.0\", \"method\": \"test_method\", \"params\": \x7b\"param\": \"value\"\x7d, \"id\": 1\x7d",
          [("Content-Type", "application/json")])] := by
  refine ⟨Or.inl rfl, rfl, ?_⟩
  rw [call_sends_single_post "http" (some "example.com") none "/api" "test_method"
    (Json.obj [("param", Json.str "value")]) 1 "2.0" none none ⟨0, []⟩
    ⟨true, true, true, true, "\x7b\"jsonrpc\": \"2.0\", \"result\": \"success\", \"id\": 1\x7d",
     Except.ok (Json.obj [("jsonrpc", Json.str "2.0"), ("result", Json.str "success"),
                          ("id", Json.num 1)])⟩ (Or.inl rfl) rfl rfl]
  rfl

/-- C10: every falsy params value — `None`, `[]` or `\x7b\x7d` — is replaced by
`params or \x7b\x7d` with an empty object, so the serialized body is the one
with `params` an empty JSON object; in particular an explicitly supplied
empty array is sent as `\x7b\x7d`, not `[]`. -/
theorem payload_falsy_params_become_empty_object (method : String) (params : Json)
    (call_id : Int) (version : String) (hv : isValidParams params = true)
    (hf : pyTruthy params = false) :
    HttpTransport.createPayload method params call_id version
        = HttpTransport.createPayload method (Json.obj []) call_id version
    ∧ HttpTransport.createPayload method params call_id version
        = Except.ok (Json.dumps (Json.obj
            [("jsonrpc", Json.str version), ("method", Json.str method),
             ("params", Json.obj []), ("id", Json.num call_id)])) := by
  rcases params with _ | b | n | s | xs | fields
  · exact ⟨rfl, rfl⟩
  · simp [isValidParams] at hv
  · simp [isValidParams] at hv
  · simp [isValidParams] at hv
  · cases xs with
    | nil => exact ⟨rfl, rfl⟩
    | cons a as => simp [pyTruthy] at hf
  · cases fields with
    | nil => exact ⟨rfl, rfl⟩
    | cons a as => simp [pyTruthy] at hf

/-- Witness for C10 at `params = []`: the body carries `"params": \x7b\x7d`. -/
theorem payload_falsy_params_become_empty_object_witness :
    isValidParams (Json.arr []) = true ∧ pyTruthy (Json.arr []) = false ∧
    HttpTransport.createPayload "test_method" (Json.arr []) 1 "2.0"
      = Except.ok "\x7b\"jsonrpc\": \"2.0\", \"method\": \"test_method\", \"params\": \x7b\x7d, \"id\": 1\x7d" := by
  refine ⟨rfl, rfl, ?_⟩
  rw [(payload_falsy_params_become_empty_object "test_method" (Json.arr []) 1 "2.0" rfl rfl).2]
  rfl

/-- C4: for every integer error code, with message and data present, the
decoder returns the description of the spec's category table: the five
exact reserved codes first, then the inclusive server-error range
`[-32099, -32000]` echoing message and data, then the catch-all echoing
message and data. -/
theorem decode_jrpc_error_matches_categories (code : Int) (message details : Json) :
    JrpcClientView.decodeJrpcError
        [("code", Json.num code), ("message", message), ("data", details)]
      = some (categoryMessage (specErrorCategory code) message details) := by
  unfold JrpcClientView.decodeJrpcError dictGet specErrorCategory categoryMessage
  simp only [List.find?,
    show (("code" : String) == "code") = true from by decide,
    show (("code" : String) == "message") = false from by decide,
    show (("message" : String) == "message") = true from by decide,
    show (("code" : String) == "data") = false from by decide,
    show (("message" : String) == "data") = false from by decide,
    show (("data" : String) == "data") = true from by decide]
  split_ifs <;> rfl

